import Mathlib

/-!
Verification development for the `actup` staleness-to-remediation pipeline.

Python source modules are shallowly embedded:
* strings are Lean `String`s (ASCII fidelity; the program only manipulates
  ASCII workflow text),
* fallible Python code returns `Except PyErr`,
* the DuckDB tables touched by the classifier query are explicit row lists,
* filesystem contents are an association list from path to file content.
-/

namespace Actup

/-- Python exception kinds that the embedded code can raise. -/
inductive PyErr where
  | valueError
  | attributeError
  | unboundLocal
  | fileNotFound
  | validationError
  deriving DecidableEq, Repr

/-- Python `\s` white-space characters (ASCII subset, as used by `str.strip`
and the `\s` regex class on the ASCII text this program handles). -/
def isPySpace (c : Char) : Bool :=
  c = ' ' || c = '\t' || c = '\n' || c = '\x0b' || c = '\x0c' || c = '\r'

/-- Digit-and-underscore tail of a Python integer literal: after the first
digit, single underscores may separate digit groups (`1_0` is legal, `1__0`,
`1_` are not). Accumulates the value. -/
def pyDigitsCore : Nat → List Char → Option Nat
  | acc, [] => some acc
  | acc, c :: rest =>
    if c.isDigit then pyDigitsCore (acc * 10 + (c.toNat - 48)) rest
    else if c = '_' then
      match rest with
      | [] => none
      | d :: rest' =>
        if d.isDigit then pyDigitsCore (acc * 10 + (d.toNat - 48)) rest'
        else none
    else none

/-- Unsigned digit string of a Python integer literal (must start with a
digit). -/
def pyDigits : List Char → Option Nat
  | [] => none
  | c :: rest => if c.isDigit then pyDigitsCore (c.toNat - 48) rest else none

/-- Strip Python white-space from both ends of a character list. -/
def pyStripChars (cs : List Char) : List Char :=
  ((cs.dropWhile isPySpace).reverse.dropWhile isPySpace).reverse

/-- Python `int(s)` on ASCII text: optional surrounding white-space, optional
sign, then digits with optional single interior underscores; `none` models a
raised `ValueError`. -/
def pyInt (s : String) : Option Int :=
  match pyStripChars s.data with
  | '+' :: rest => (pyDigits rest).map Int.ofNat
  | '-' :: rest => (pyDigits rest).map (fun n => -(n : Int))
  | rest => (pyDigits rest).map Int.ofNat

/-- `s.lstrip("v").split(".")[0]`: drop every leading `v`, then keep the
characters before the first `.`. -/
def leadingComponent (s : String) : String :=
  ⟨(s.data.dropWhile (· = 'v')).takeWhile (· ≠ '.')⟩

/-- Body of the `try` block of `is_major_version_outdated`: parse both major
components with `int()` (a failed parse raises `ValueError`) and compare. -/
def majorCompareBody (detected_version latest_version : String) : Except PyErr Bool :=
  match pyInt (leadingComponent detected_version) with
  | none => .error .valueError
  | some detected_major =>
    match pyInt (leadingComponent latest_version) with
    | none => .error .valueError
    | some latest_major => .ok (decide (detected_major < latest_major))

/-- `actup.utils.is_major_version_outdated`: empty input short-circuits to
`False`; the `try`/`except ValueError` around the parse maps a parse failure
to `False`; any other exception would propagate (none can arise). -/
def is_major_version_outdated (detected_version latest_version : String) : Except PyErr Bool :=
  if detected_version = "" || latest_version = "" then .ok false
  else
    match majorCompareBody detected_version latest_version with
    | .ok b => .ok b
    | .error .valueError => .ok false
    | .error e => .error e

/-- Python `p in s` on character lists: does `p` occur as a contiguous
substring of `s`? -/
def containsSubL (p : List Char) : List Char → Bool
  | [] => p.isPrefixOf []
  | c :: rest => p.isPrefixOf (c :: rest) || containsSubL p rest

/-- Python `s in t` on strings. -/
def strContains (s p : String) : Bool :=
  containsSubL p.data s.data

/-- Python `s.replace(p, r)` (all occurrences, scanned left to right,
non-overlapping), fuelled by the length of `s`; every call site in this
program uses a non-empty pattern, for which the fuel is always sufficient. -/
def replaceAllAux (p r : List Char) : Nat → List Char → List Char
  | 0, s => s
  | _ + 1, [] => []
  | fuel + 1, c :: rest =>
    if !p.isEmpty && p.isPrefixOf (c :: rest) then
      r ++ replaceAllAux p r fuel ((c :: rest).drop p.length)
    else
      c :: replaceAllAux p r fuel rest

/-- Python `s.replace(p, r)` on strings (non-empty pattern). -/
def pyReplace (s p r : String) : String :=
  ⟨replaceAllAux p.data r.data s.length s.data⟩

/-- `actup.utils.replace_action_version_in_content`. -/
def replace_action_version_in_content (content action_name old_version new_version : String) : String :=
  pyReplace content ("uses: " ++ action_name ++ "@" ++ old_version)
    ("uses: " ++ action_name ++ "@" ++ new_version)

/-- Scalar Python values appearing inside the program's records. -/
inductive PyLeaf where
  | s (v : String)
  | i (v : Int)
  | none
  deriving DecidableEq, Repr

/-- Python values handled by `deduplicate_list`. The program only ever feeds
it flat values (strings, numbers, tuples of scalars, and dict-shaped usage
records whose fields are scalars), so one level of structure suffices. -/
inductive PyVal where
  | leaf (v : PyLeaf)
  | tuple (xs : List PyLeaf)
  | list (xs : List PyLeaf)
  | dict (kvs : List (String × PyLeaf))
  | set (xs : List PyLeaf)
  | frozenset (xs : List PyLeaf)
  deriving DecidableEq, Repr

/-- `isinstance(item, (list, dict, set)) and not isinstance(item, frozenset)`:
the unhashable values that `deduplicate_list` appends without consulting
`seen`. -/
def passThrough : PyVal → Bool
  | .list _ => true
  | .dict _ => true
  | .set _ => true
  | _ => false

/-- Loop of `actup.utils.deduplicate_list`, with the `seen` set carried as a
list (membership is Python `in`). -/
def dedupAux (seen : List PyVal) : List PyVal → List PyVal
  | [] => []
  | item :: rest =>
    if passThrough item then item :: dedupAux seen rest
    else if item ∈ seen then dedupAux seen rest
    else item :: dedupAux (item :: seen) rest

/-- `actup.utils.deduplicate_list`. -/
def deduplicate_list (input_list : List PyVal) : List PyVal :=
  dedupAux [] input_list

/-- Spec-side definition for C8, following the spec's words: order-preserving
first-seen deduplication (keep each element's first occurrence, drop the
rest). Compared against `deduplicate_list` in the refinement theorem. -/
def firstSeenDedup : List PyVal → List PyVal
  | [] => []
  | x :: xs => x :: firstSeenDedup (xs.filter (fun y => y ≠ x))
termination_by l => l.length
decreasing_by exact Nat.lt_succ_of_le (List.length_filter_le _ _)

/-- Character class `[a-zA-Z0-9_\-]` of the `uses:` regex. -/
def isNameChar (c : Char) : Bool :=
  c.isAlpha || c.isDigit || c = '_' || c = '-'

/-- Character class `[a-zA-Z0-9_\-\.]` (the version/ref part). -/
def isVerChar (c : Char) : Bool :=
  isNameChar c || c = '.'

/-- Consume an exact literal prefix, returning the rest. -/
def dropLit : List Char → List Char → Option (List Char)
  | [], cs => some cs
  | _ :: _, [] => Option.none
  | l :: ls, c :: cs => if c = l then dropLit ls cs else Option.none

/-- Match the regex `uses:\s+([a-zA-Z0-9_\-]+/[a-zA-Z0-9_\-]+)@([a-zA-Z0-9_\-\.]+)`
anchored at the start of `cs`, returning the two capture groups. The
character classes exclude `/` and `@`, so greedy matching is deterministic. -/
def matchUsesAt (cs : List Char) : Option (String × String) :=
  match dropLit "uses:".data cs with
  | Option.none => Option.none
  | some cs =>
    if (cs.takeWhile isPySpace).isEmpty then Option.none
    else
      let cs := cs.dropWhile isPySpace
      let n1 := cs.takeWhile isNameChar
      if n1.isEmpty then Option.none
      else
        match cs.dropWhile isNameChar with
        | '/' :: cs =>
          let n2 := cs.takeWhile isNameChar
          if n2.isEmpty then Option.none
          else
            match cs.dropWhile isNameChar with
            | '@' :: cs =>
              let v := cs.takeWhile isVerChar
              if v.isEmpty then Option.none
              else some (⟨n1⟩ ++ "/" ++ ⟨n2⟩, ⟨v⟩)
            | _ => Option.none
        | _ => Option.none

/-- `re.search`: first position (left to right) at which the pattern matches. -/
def searchUses : List Char → Option (String × String)
  | [] => Option.none
  | c :: rest =>
    match matchUsesAt (c :: rest) with
    | some r => some r
    | Option.none => searchUses rest

/-- `actup.utils.parse_action_version`. -/
def parse_action_version (action_line : String) : Option (String × String) :=
  searchUses action_line.data

/-- Enumeration loop of `scan_file_for_action_line_number` (`i` counts lines
already consumed; reported line numbers are 1-based). -/
def scanLinesAux (action : String) : Nat → List String → List (Nat × String × String)
  | _, [] => []
  | i, line :: rest =>
    (match parse_action_version line with
     | some (nm, ver) => if nm = action then [(i + 1, nm, ver)] else []
     | Option.none => []) ++ scanLinesAux action (i + 1) rest

/-- `actup.utils.scan_file_for_action_line_number`; the file content is
modelled as its list of lines (`splitlines`). -/
def scan_file_for_action_line_number (file_lines : List String) (action : String) :
    List (Nat × String × String) :=
  scanLinesAux action 0 file_lines

/-- `u[: u.find("@")]`: the text before the first `@`, or — when there is no
`@`, since `find` returns `-1` — the string minus its last character. -/
def takeBeforeAt (u : String) : String :=
  if u.data.contains '@' then ⟨u.data.takeWhile (· ≠ '@')⟩ else ⟨u.data.dropLast⟩

/-- One entry of the in-memory `used_actions` list: the dict built per
reusable-workflow call or per step with a `uses` target. -/
structure RawUsage where
  action_raw : String
  filepath : String
  line_numbers : List (Nat × String × String)
  deriving DecidableEq, Repr

/-- A parsed workflow job: an optional job-level `uses` (reusable workflow
call) plus the `uses` values of its steps that have one. -/
structure WorkflowJob where
  job_uses : Option String
  step_uses : List String
  deriving Repr

/-- The record-building loop of `search_and_extract_actions` for one parsed
workflow file: one `RawUsage` per job-level `uses` and one per step `uses`,
in source order. -/
def extract_file_usages (filepath : String) (jobs : List WorkflowJob)
    (rawLines : List String) : List RawUsage :=
  jobs.flatMap (fun job =>
    (match job.job_uses with
     | some u => [⟨u, filepath, scan_file_for_action_line_number rawLines (takeBeforeAt u)⟩]
     | Option.none => [])
    ++ job.step_uses.map
        (fun u => ⟨u, filepath, scan_file_for_action_line_number rawLines (takeBeforeAt u)⟩))

/-- A per-line record produced by `split_dict_by_line_numbers` (the base dict
with `repo_full_name` already set, one line tuple each). -/
structure PerLineUsage where
  action_raw : String
  filepath : String
  repo_full_name : String
  line_numbers : Nat × String × String
  deriving DecidableEq, Repr

/-- `actup.utils.split_dict_by_line_numbers`, applied to a usage dict whose
`repo_full_name` key has been set. -/
def split_dict_by_line_numbers (repo_full_name : String) (original : RawUsage) :
    List PerLineUsage :=
  original.line_numbers.map (fun t => ⟨original.action_raw, original.filepath, repo_full_name, t⟩)

/-- The final shape of a persisted usage record (after the second loop of
`search_and_extract_actions` collapses `line_numbers` to its head). -/
structure UsageRecord where
  action_raw : String
  filepath : String
  repo_full_name : String
  action_name : String
  action_version : String
  line_number : Int
  deriving DecidableEq, Repr

/-- Second mutation loop of `search_and_extract_actions`: take the first
line-number tuple (or `Unknown`/`-1` when the list is empty) and drop the
rest. -/
def finalizeUsage (repo_full_name : String) (r : RawUsage) : UsageRecord :=
  match r.line_numbers with
  | [] => ⟨r.action_raw, r.filepath, repo_full_name, "Unknown", "Unknown", -1⟩
  | (ln, nm, ver) :: _ => ⟨r.action_raw, r.filepath, repo_full_name, nm, ver, (ln : Int)⟩

/-- A usage record as the Python dict that is JSON-dumped (keys in the
insertion order the source produces). -/
def encodeUsage (r : UsageRecord) : PyVal :=
  .dict [("action_raw", .s r.action_raw), ("filepath", .s r.filepath),
         ("repo_full_name", .s r.repo_full_name), ("action_name", .s r.action_name),
         ("action_version", .s r.action_version), ("line_number", .i r.line_number)]

/-- Tail of `search_and_extract_actions` for a repository with one workflow
file (directory walking and YAML parsing are supplied as the parsed `jobs`
and the file's raw lines). The first component is the local
`used_actions_per_line` — computed by the source and then never used; the
second is `deduplicate_list(used_actions)`, the list actually dumped to
`actions_used.json`. -/
def search_and_extract_actions (repo_full_name filepath : String)
    (jobs : List WorkflowJob) (rawLines : List String) :
    List PerLineUsage × List PyVal :=
  let used := extract_file_usages filepath jobs rawLines
  (used.flatMap (split_dict_by_line_numbers repo_full_name),
   deduplicate_list ((used.map (finalizeUsage repo_full_name)).map encodeUsage))

/-- A workflow with one job whose two steps reference the same action. -/
def c2Jobs : List WorkflowJob :=
  [⟨Option.none, ["octo/checkout@v3", "octo/checkout@v3"]⟩]

/-- Raw text of that workflow: the two `uses:` lines are lines 5 and 9. -/
def c2Lines : List String :=
  ["name: ci",
   "jobs:",
   "  build:",
   "    steps:",
   "      - uses: octo/checkout@v3",
   "      - run: make",
   "      - name: again",
   "        id: two",
   "      - uses: octo/checkout@v3",
   "      - run: make test"]

/-- `actup.models.RepositoryMention`: exactly the fields the pydantic model
declares — in particular there is no `commit_sha` field. -/
structure RepositoryMention where
  repo_full_name : String
  file_path : String
  line_number : Int
  action_name : String
  detected_version : String
  latest_version : String
  stars : Int
  is_outdated : Bool
  deriving DecidableEq, Repr

/-- The field names declared on the `RepositoryMention` pydantic model. -/
def RepositoryMention.declaredFields : List String :=
  ["repo_full_name", "file_path", "line_number", "action_name",
   "detected_version", "latest_version", "stars", "is_outdated"]

/-- Python attribute read `m.<name>` on a `RepositoryMention` instance:
declared fields return their value; any other name — `commit_sha`
included — raises `AttributeError` (pydantic ignores unknown constructor
keywords, so no extra attribute ever exists). -/
def RepositoryMention.getattr (m : RepositoryMention) (name : String) : Except PyErr PyVal :=
  if name = "repo_full_name" then .ok (.leaf (.s m.repo_full_name))
  else if name = "file_path" then .ok (.leaf (.s m.file_path))
  else if name = "line_number" then .ok (.leaf (.i m.line_number))
  else if name = "action_name" then .ok (.leaf (.s m.action_name))
  else if name = "detected_version" then .ok (.leaf (.s m.detected_version))
  else if name = "latest_version" then .ok (.leaf (.s m.latest_version))
  else if name = "stars" then .ok (.leaf (.i m.stars))
  else if name = "is_outdated" then .ok (.leaf (.i (if m.is_outdated then 1 else 0)))
  else .error .attributeError

/-- Python truthiness of the scalar values read off a mention. -/
def pyTruthy : PyVal → Bool
  | .leaf (.s v) => !(v = "")
  | .leaf (.i v) => !(v = 0)
  | .leaf .none => false
  | .tuple xs => !xs.isEmpty
  | .list xs => !xs.isEmpty
  | .dict kvs => !kvs.isEmpty
  | .set xs => !xs.isEmpty
  | .frozenset xs => !xs.isEmpty

/-- String payload of a scalar value (only ever applied to strings). -/
def pyValString : PyVal → String
  | .leaf (.s v) => v
  | _ => ""

/-- The local filesystem, as path ↦ file content. -/
abbrev FS := List (String × String)

/-- `open(path).read()`: `none` models `FileNotFoundError`. -/
def fsRead (fs : FS) (path : String) : Option String :=
  match fs with
  | [] => Option.none
  | (p, c) :: rest => if p = path then some c else fsRead rest path

/-- `open(path, "w").write(content)`. -/
def fsWrite (fs : FS) (path content : String) : FS :=
  match fs with
  | [] => [(path, content)]
  | (p, c) :: rest => if p = path then (p, content) :: rest else (p, c) :: fsWrite rest path content

/-- Python set insertion, modelled on a duplicate-free list. -/
def insertSet (s : List String) (x : String) : List String :=
  if x ∈ s then s else s ++ [x]

/-- `m.file_path.replace("/cloned_repos/", "/pr/")`, applied to the mention
at the top of the rewrite loop. -/
def remapMention (m : RepositoryMention) : RepositoryMention :=
  { m with file_path := pyReplace m.file_path "/cloned_repos/" "/pr/" }

/-- `PullRequestCreator._replace_with_sha_comment`. -/
def replaceWithShaComment (content action_name old_version commit_sha : String) : String :=
  let old_ref := "uses: " ++ action_name ++ "@" ++ old_version
  let new_ref := "uses: " ++ action_name ++ "@" ++ commit_sha ++ " #" ++ old_version
  if strContains content old_ref then pyReplace content old_ref new_ref else content

/-- One iteration's branch of `PullRequestCreator.update_workflow_files`:
compute the value of the `new_content` local after the `if`/`elif`, where
`prev` is its (possibly unassigned, `none`) value from earlier iterations.
`pin_to_sha and m.commit_sha` evaluates the attribute read, which raises;
`elif m.latest_version` falls back to the version-bump substitution; when
neither branch assigns, the stale `prev` is kept. -/
def newContentAfterBranch (pin_to_sha : Bool) (m : RepositoryMention) (content : String)
    (prev : Option String) : Except PyErr (Option String) :=
  if pin_to_sha then
    match m.getattr "commit_sha" with
    | .error e => .error e
    | .ok v =>
      if pyTruthy v then
        .ok (some (replaceWithShaComment content m.action_name m.detected_version (pyValString v)))
      else if !(m.latest_version = "") then
        .ok (some (replace_action_version_in_content content m.action_name m.detected_version
          m.latest_version))
      else .ok prev
  else if !(m.latest_version = "") then
    .ok (some (replace_action_version_in_content content m.action_name m.detected_version
      m.latest_version))
  else .ok prev

/-- The rewrite loop of `PullRequestCreator.update_workflow_files`: `prev`
carries the `new_content` local across iterations (`none` = never assigned;
comparing it then raises `UnboundLocalError`), `modified` the set of
modified file paths. -/
def updateLoop (pin_to_sha : Bool) (fs : FS) (prev : Option String)
    (modified : List String) : List RepositoryMention → Except PyErr (FS × List String)
  | [] => .ok (fs, modified)
  | m :: rest =>
    let m := remapMention m
    match fsRead fs m.file_path with
    | Option.none => .error .fileNotFound
    | some content =>
      match newContentAfterBranch pin_to_sha m content prev with
      | .error e => .error e
      | .ok Option.none => .error .unboundLocal
      | .ok (some new_content) =>
        if !(new_content = content) then
          updateLoop pin_to_sha (fsWrite fs m.file_path new_content) (some new_content)
            (insertSet modified m.file_path) rest
        else
          updateLoop pin_to_sha fs (some new_content) modified rest

/-- `PullRequestCreator.update_workflow_files`. -/
def update_workflow_files (pin_to_sha : Bool) (mentions : List RepositoryMention)
    (fs : FS) : Except PyErr (FS × List String) :=
  updateLoop pin_to_sha fs Option.none [] mentions

/-- A row of the `outdated_actions` table (all columns the classifier query
reads). -/
structure OARow where
  repo_full_name : String
  action_name : String
  action_version : String
  filepath : String
  line_number : Int
  latest_major_version : Option String
  is_outdated : Bool
  deriving DecidableEq, Repr

/-- A row of `popular_repositories` (columns the query reads). -/
structure PopRepoRow where
  repo_full_name : String
  stars : Int
  deriving DecidableEq, Repr

/-- A row of `popular_actions` (columns the query reads); `latest_version`
is nullable. -/
structure PARow where
  owner : String
  repo : String
  latest_version : Option String
  deriving DecidableEq, Repr

/-- A row of `action_tags`. -/
structure TagRow where
  action_name : String
  tag : String
  commit_sha : Option String
  deriving DecidableEq, Repr

/-- The database state read by `Database.get_outdated_mentions`;
`pull_request_exclusions` is its primary-key column. -/
structure DBState where
  outdated_actions : List OARow
  popular_repositories : List PopRepoRow
  popular_actions : List PARow
  action_tags : List TagRow
  pull_request_exclusions : List String
  deriving Repr

/-- SQL `LEFT JOIN` against an already-filtered match list: one output per
match, or a single null-extended row when there is none. -/
def leftJoin1 {β : Type} (ms : List β) : List (Option β) :=
  match ms with
  | [] => [Option.none]
  | ms => ms.map some

/-- One row of the classifier query's join product. -/
structure QRow where
  oa : OARow
  pr : Option PopRepoRow
  pa : Option PARow
  tag : Option TagRow
  pre : Option String
  deriving DecidableEq, Repr

/-- The join product of the `get_outdated_mentions` query (before `WHERE`). -/
def queryRows (db : DBState) : List QRow :=
  db.outdated_actions.flatMap (fun oa =>
    (leftJoin1 (db.popular_repositories.filter
        (fun p => decide (p.repo_full_name = oa.repo_full_name)))).flatMap (fun pr =>
    (leftJoin1 (db.popular_actions.filter
        (fun a => decide (a.owner ++ "/" ++ a.repo = oa.action_name)))).flatMap (fun pa =>
    (leftJoin1 (db.action_tags.filter
        (fun t => decide (t.action_name = oa.action_name) &&
                  decide (t.tag = oa.action_version)))).flatMap (fun tg =>
    (leftJoin1 (db.pull_request_exclusions.filter
        (fun e => decide (e = oa.repo_full_name)))).map (fun pre =>
    ⟨oa, pr, pa, tg, pre⟩)))))

/-- The repository denylist hard-coded in the query. -/
def hardcodedRepoDenylist : List String :=
  ["ant-design/ant-design", "expo/expo", "tldraw/tldraw", "gorhill/uBlock",
   "AUTOMATIC1111/stable-diffusion-webui", "alacritty/alacritty",
   "pocketbase/pocketbase", "RVC-Boss/GPT-SoVITS", "Significant-Gravitas/AutoGPT"]

/-- The query's `WHERE` clause: outdated, no exclusion-ledger match
(`pre.repo_full_name IS NULL`), not denylisted, not `actions/labeler`. -/
def rowEligible (r : QRow) : Bool :=
  r.oa.is_outdated && r.pre.isNone &&
    !(hardcodedRepoDenylist.contains r.oa.repo_full_name) &&
    !(decide (r.oa.action_name = "actions/labeler"))

/-- `ORDER BY pr.stars asc` key (`NULL` sorts last). -/
def starsKey (r : QRow) : Option Int :=
  r.pr.map (·.stars)

/-- Key order for ascending star sort with nulls last. -/
def starsLe : Option Int → Option Int → Bool
  | some a, some b => decide (a ≤ b)
  | some _, Option.none => true
  | Option.none, _ => false

/-- Insertion step of the star sort. -/
def insertByStars (x : QRow) : List QRow → List QRow
  | [] => [x]
  | y :: ys => if starsLe (starsKey x) (starsKey y) then x :: y :: ys else y :: insertByStars x ys

/-- `ORDER BY pr.stars asc` (insertion sort; the claims only rely on the
output being a permutation of the input). -/
def sortByStars : List QRow → List QRow
  | [] => []
  | x :: xs => insertByStars x (sortByStars xs)

/-- `RepositoryMention(repo_full_name=r[0], ..., commit_sha=r[8])` on one
query row: pydantic validates the declared fields — `latest_version` and
`stars` must be non-NULL — and silently drops the undeclared `commit_sha`
keyword (`r.tag` is never read). -/
def mkMention (r : QRow) : Except PyErr RepositoryMention :=
  match r.pa.bind (·.latest_version), r.pr.map (·.stars) with
  | some lv, some st =>
      .ok ⟨r.oa.repo_full_name, r.oa.filepath, r.oa.line_number, r.oa.action_name,
           r.oa.action_version, lv, st, r.oa.is_outdated⟩
  | _, _ => .error .validationError

/-- The list comprehension over fetched rows (the first pydantic validation
failure propagates). -/
def mapMentions : List QRow → Except PyErr (List RepositoryMention)
  | [] => .ok []
  | r :: rs =>
    match mkMention r with
    | .error e => .error e
    | .ok m =>
      match mapMentions rs with
      | .error e => .error e
      | .ok ms => .ok (m :: ms)

/-- `Database.get_outdated_mentions`. -/
def get_outdated_mentions (db : DBState) : Except PyErr (List RepositoryMention) :=
  mapMentions (sortByStars ((queryRows db).filter rowEligible))

/-- Python `s.strip()` (ASCII white-space). -/
def pyStrip (s : String) : String :=
  ⟨pyStripChars s.data⟩

/-- Python `s.lower()` (ASCII). -/
def pyLower (s : String) : String :=
  ⟨s.data.map Char.toLower⟩

/-- Split on a one-character separator (Python `s.split(sep)` semantics:
`""` splits to `[""]`, adjacent separators give empty fields). -/
def splitCharAux (sep : Char) : List Char → List Char → List String
  | acc, [] => [⟨acc.reverse⟩]
  | acc, c :: rest =>
    if c = sep then (⟨acc.reverse⟩ : String) :: splitCharAux sep [] rest
    else splitCharAux sep (c :: acc) rest

/-- Python `s.split("/")` and friends. -/
def pySplitChar (sep : Char) (s : String) : List String :=
  splitCharAux sep [] s.data

/-- `"/".join(parts)`. -/
def joinSlash : List String → String
  | [] => ""
  | [x] => x
  | x :: xs => x ++ "/" ++ joinSlash xs

/-- An entry of `find_workflow_yaml_prs`'s result: an open PR touching
`.github/workflows` YAML (fields read by `should_create_pr`). -/
structure PRInfo where
  number : Int
  title : String
  author : Option String
  deriving DecidableEq, Repr

/-- The pin-strategy conflict test on one PR: title (stripped, lowered)
contains both `pin` and `sha`, or contains `commit sha`, or the PR author is
the tool's own identity (`and` binds tighter than `or`, as in the source). -/
def prMatchesPin (pr : PRInfo) : Bool :=
  let t := pyLower (pyStrip pr.title)
  (strContains t "pin" && strContains t "sha") || strContains t "commit sha" ||
    decide (pr.author = some "pgoslatara")

/-- The version-strategy conflict test on one PR: title contains one of the
fixed bot-update phrasings (`find(...) >= 0`, except the group phrase which
must start the title, `find(...) == 0`), or the PR author is the tool's own
identity. -/
def prMatchesVersion (pr : PRInfo) : Bool :=
  let t := pyLower (pyStrip pr.title)
  strContains t "(deps): bump actions/" || strContains t "build: bump " ||
    strContains t "bump " || "bump the github-actions group".data.isPrefixOf t.data ||
    strContains t "chore(deps): bump " || strContains t "chore(deps): update " ||
    strContains t "ci: bump " || decide (pr.author = some "pgoslatara")

/-- `PullRequestCreator.should_create_pr`: `True` on an empty list; otherwise
the loop returns `False` at the first matching PR and `True` after the loop
— i.e. no listed PR matches the strategy's conflict test. -/
def should_create_pr (pin_to_sha : Bool) (existing_prs : List PRInfo) : Bool :=
  if pin_to_sha then existing_prs.all (fun pr => !prMatchesPin pr)
  else existing_prs.all (fun pr => !prMatchesVersion pr)

/-- `owner, repo_name = repo_full_name.split("/")`: exactly two parts, else
the unpacking raises `ValueError`. -/
def pySplit2 (s : String) : Option (String × String) :=
  match pySplitChar '/' s with
  | [a, b] => some (a, b)
  | _ => Option.none

/-- `'/'.join(p.split('/')[3:])`. -/
def pathTail3 (p : String) : String :=
  joinSlash ((pySplitChar '/' p).drop 3)

/-- Body lines of the pin-strategy PR description; reads `m.commit_sha`
(raising `AttributeError` on classifier-produced mentions). -/
def pinBodyLines : List RepositoryMention → Except PyErr String
  | [] => .ok ""
  | m :: rest =>
    match m.getattr "commit_sha" with
    | .error e => .error e
    | .ok v =>
      let sha_short := if pyTruthy v then (⟨(pyValString v).data.take 7⟩ : String) else "unknown"
      match pinBodyLines rest with
      | .error e => .error e
      | .ok s =>
        .ok ("- Pinned `" ++ m.action_name ++ "` from `" ++ m.detected_version ++ "` to `"
          ++ sha_short ++ "` in `" ++ pathTail3 m.file_path ++ "`\n" ++ s)

/-- Body lines of the version-strategy PR description. -/
def versionBodyLines : List RepositoryMention → String
  | [] => ""
  | m :: rest =>
    "- Updated `" ++ m.action_name ++ "` from `" ++ m.detected_version ++ "` to `"
      ++ m.latest_version ++ "` in `" ++ pathTail3 m.file_path ++ "`\n"
      ++ versionBodyLines rest

/-- `PullRequestCreator.build_pr_details` (its `modified_files` parameter is
never read by the source, so it is omitted here). -/
def build_pr_details (pin_to_sha : Bool) (mentions : List RepositoryMention) :
    Except PyErr (String × String) :=
  if pin_to_sha then
    match pinBodyLines mentions with
    | .error e => .error e
    | .ok body =>
      .ok ((if mentions.length > 1 then "chore: Pin GitHub Actions to commit SHAs"
            else "chore: Pin GitHub Action to commit SHA"),
        "This PR pins GitHub Actions to exact commit SHAs for more reproducible builds.\n\n"
          ++ body)
  else
    .ok ((if mentions.length > 1 then "chore: Update outdated GitHub Actions versions"
          else "chore: Update outdated GitHub Actions version"),
      "This PR updates outdated GitHub Action versions.\n\n" ++ versionBodyLines mentions)

/-- The externally observable side effects the orchestrator can perform for
a repository. -/
inductive Event where
  | commit
  | push
  | createPR
  | savePrRecord
  | addExclusion (repo_full_name : String)
  | updateTracker
  deriving DecidableEq, Repr

/-- `actup.models.PullRequestRecord` (the `created_at` wall-clock timestamp
is outside the embedding). -/
structure PullRequestRecordM where
  repo_full_name : String
  pr_url : String
  branch_name : String
  status : String
  deriving DecidableEq, Repr

/-- External collaborators of one `create_pr_for_repo` run: the cloned
working tree (`fs`), the open workflow-touching PRs upstream, the operator's
interactive answer, the optional PR template and the LLM-merged body, and
the created PR's URL/state returned by the API. -/
structure OrchEnv where
  fs : FS
  existing_prs : List PRInfo
  default_branch : String
  current_user : String
  confirmation : String
  template : Option String
  merged_body : String
  pr_html_url : String
  pr_state : String
  branch_timestamp : Int
  deriving Repr

/-- `PullRequestCreator.create_pr_for_repo`: the per-repository state
machine, returning the Python result (or propagated exception) together with
the ordered list of side effects performed. -/
def create_pr_for_repo (env : OrchEnv) (pin_to_sha : Bool) (repo_full_name : String)
    (mentions : List RepositoryMention) (interactive : Bool) :
    Except PyErr (Option PullRequestRecordM) × List Event :=
  match pySplit2 repo_full_name with
  | Option.none => (.error .valueError, [])
  | some (_owner, _repo_name) =>
    let branch_name :=
      (if pin_to_sha then "actup/pin-actions-to-sha" else "actup/update-actions")
        ++ "-" ++ toString env.branch_timestamp
    match update_workflow_files pin_to_sha mentions env.fs with
    | .error e => (.error e, [])
    | .ok (_, modified_files) =>
      if modified_files.isEmpty then
        (.ok Option.none, [.addExclusion repo_full_name])
      else
        match build_pr_details pin_to_sha mentions with
        | .error e => (.error e, [.commit, .push])
        | .ok (_pr_title, pr_body) =>
          if !(should_create_pr pin_to_sha env.existing_prs) then
            (.ok Option.none, [.commit, .push, .addExclusion repo_full_name])
          else
            let _pr_body := match env.template with
              | some _ => env.merged_body
              | Option.none => pr_body
            if interactive && !(pyLower env.confirmation = "y") then
              (.ok Option.none, [.commit, .push, .addExclusion repo_full_name])
            else
              (.ok (some ⟨repo_full_name, env.pr_html_url, branch_name, env.pr_state⟩),
               [.commit, .push, .createPR, .savePrRecord, .addExclusion repo_full_name,
                .updateTracker])

/-- The inline rewrite loop of the CLI `create_prs` command (version
strategy only; `new_content` is assigned on every iteration there). -/
def cliUpdateLoop (fs : FS) (modified : List String) :
    List RepositoryMention → Except PyErr (FS × List String)
  | [] => .ok (fs, modified)
  | m :: rest =>
    let m := remapMention m
    match fsRead fs m.file_path with
    | Option.none => .error .fileNotFound
    | some content =>
      let new_content := replace_action_version_in_content content m.action_name
        m.detected_version m.latest_version
      if !(new_content = content) then
        cliUpdateLoop (fsWrite fs m.file_path new_content) (insertSet modified m.file_path) rest
      else
        cliUpdateLoop fs modified rest

/-- The per-repository body of the CLI `create_prs` command
(`actup.cli.create_prs`): on no modified files it `continue`s — writing no
exclusion — and otherwise commits, pushes, optionally creates the PR after
confirmation, and always writes the exclusion at the end. -/
def cli_process_repo (env : OrchEnv) (repo_full_name : String)
    (mentions : List RepositoryMention) : Except PyErr (FS × List Event) :=
  match pySplit2 repo_full_name with
  | Option.none => .error .valueError
  | some _ =>
    match cliUpdateLoop env.fs [] mentions with
    | .error e => .error e
    | .ok (fs1, modified_files) =>
      if modified_files.isEmpty then .ok (fs1, [])
      else
        .ok (fs1, [.commit, .push]
          ++ (if pyLower env.confirmation = "y" then
                [.createPR, .savePrRecord, .updateTracker]
              else [])
          ++ [.addExclusion repo_full_name])

/-- The events of a CLI per-repository run (none when it raised). -/
def runEvents : Except PyErr (FS × List Event) → List Event
  | .ok (_, evts) => evts
  | .error _ => []

end Actup

namespace Actup

/-- Guarded or parse-failure inputs all yield `.ok false`. -/
lemma is_major_version_outdated_false_cases (d l : String)
    (h : d = "" ∨ l = "" ∨ pyInt (leadingComponent d) = none ∨ pyInt (leadingComponent l) = none) :
    is_major_version_outdated d l = .ok false := by
  unfold is_major_version_outdated majorCompareBody
  rcases h with h | h | h | h
  · simp [h]
  · simp [h]
  · rcases hd : (d = "" || l = "") with _ | _ <;> simp_all
  · rcases hd : (d = "" || l = "") with _ | _ <;>
      cases hm : pyInt (leadingComponent d) <;> simp_all

/-- `is_major_version_outdated` never propagates an exception: the only
fallible operation in its body is `int()`, whose `ValueError` is caught. -/
lemma is_major_version_outdated_total (d l : String) :
    ∃ b, is_major_version_outdated d l = .ok b := by
  unfold is_major_version_outdated majorCompareBody
  rcases hd : (d = "" || l = "") with _ | _
  · cases h1 : pyInt (leadingComponent d) <;> cases h2 : pyInt (leadingComponent l) <;> simp
  · simp

/-- C1: `is_major_version_outdated` returns `.ok false` (no exception)
whenever either string is empty or the leading component after stripping
leading `v`s fails to parse as an `int`; when both parse, it returns exactly
`detected_major < latest_major`; it never raises; and the three concrete
examples evaluate as claimed. -/
theorem claim_C1 :
    (∀ d l : String,
        (d = "" ∨ l = "" ∨ pyInt (leadingComponent d) = none ∨ pyInt (leadingComponent l) = none) →
        is_major_version_outdated d l = .ok false)
    ∧ (∀ d l : String, ∀ dm lm : Int,
        d ≠ "" → l ≠ "" →
        pyInt (leadingComponent d) = some dm → pyInt (leadingComponent l) = some lm →
        is_major_version_outdated d l = .ok (decide (dm < lm)))
    ∧ (∀ d l : String, ∃ b, is_major_version_outdated d l = .ok b)
    ∧ is_major_version_outdated "v3" "v4" = .ok true
    ∧ is_major_version_outdated "v4" "v4" = .ok false
    ∧ is_major_version_outdated "v10" "v2" = .ok false := by
  refine ⟨is_major_version_outdated_false_cases, ?_, is_major_version_outdated_total, ?_, ?_, ?_⟩
  · intro d l dm lm hd hl hdm hlm
    unfold is_major_version_outdated majorCompareBody
    simp [hd, hl, hdm, hlm]
  · rfl
  · rfl
  · rfl

/-- Witness for C1 at concrete inputs, discharging each hypothesis. -/
theorem claim_C1_witness :
    is_major_version_outdated "" "v4" = .ok false ∧
    is_major_version_outdated "v3" "v10" = .ok true := by
  constructor
  · exact claim_C1.1 "" "v4" (Or.inl rfl)
  · exact claim_C1.2.1 "v3" "v10" 3 10 (by decide) (by decide) (by decide) (by decide)

/-- A pattern that occurs nowhere in `s` is replaced by nothing: the scan
reproduces `s` unchanged, for any amount of fuel. -/
lemma replaceAllAux_of_not_contains (p r : List Char) (fuel : Nat) (s : List Char)
    (h : containsSubL p s = false) : replaceAllAux p r fuel s = s := by
  induction fuel generalizing s with
  | zero => rfl
  | succ n ih =>
    cases s with
    | nil => rfl
    | cons c rest =>
      unfold containsSubL at h
      simp only [Bool.or_eq_false_iff] at h
      unfold replaceAllAux
      simp only [h.1, Bool.and_false, Bool.false_eq_true, if_false]
      exact congrArg (c :: ·) (ih rest h.2)

/-- `s.replace(p, r)` is the identity when `p` does not occur in `s`. -/
lemma pyReplace_of_not_contains (s p r : String) (h : strContains s p = false) :
    pyReplace s p r = s := by
  unfold pyReplace
  rw [replaceAllAux_of_not_contains p.data r.data s.length s.data h]

/-- C6 counterexample: the version-bump substitution is not idempotent when
the new pattern still contains the old one — bumping `v1` to `v1.2` once
gives `uses: a/b@v1.2`, and a second application corrupts it to
`uses: a/b@v1.2.2`. -/
theorem claim_C6_counterexample :
    replace_action_version_in_content
        (replace_action_version_in_content "uses: a/b@v1" "a/b" "v1" "v1.2")
        "a/b" "v1" "v1.2"
      ≠ replace_action_version_in_content "uses: a/b@v1" "a/b" "v1" "v1.2" := by
  decide

/-- C6 amended: applying the version-bump substitution twice equals applying
it once whenever the searched substring `uses: <action>@<old>` no longer
occurs in the once-substituted content. -/
theorem claim_C6_amended (content action_name old_version new_version : String)
    (h : strContains
          (replace_action_version_in_content content action_name old_version new_version)
          ("uses: " ++ action_name ++ "@" ++ old_version) = false) :
    replace_action_version_in_content
        (replace_action_version_in_content content action_name old_version new_version)
        action_name old_version new_version
      = replace_action_version_in_content content action_name old_version new_version :=
  pyReplace_of_not_contains _ _ _ h

/-- Witness for C6 amended at concrete inputs. -/
theorem claim_C6_amended_witness :
    replace_action_version_in_content
        (replace_action_version_in_content "uses: a/b@v1" "a/b" "v1" "v2")
        "a/b" "v1" "v2"
      = replace_action_version_in_content "uses: a/b@v1" "a/b" "v1" "v2" :=
  claim_C6_amended "uses: a/b@v1" "a/b" "v1" "v2" (by decide)

/-- Everything kept by `firstSeenDedup` came from the input. -/
lemma mem_firstSeenDedup : ∀ n (l : List PyVal), l.length ≤ n →
    ∀ y ∈ firstSeenDedup l, y ∈ l := by
  intro n
  induction n with
  | zero =>
    intro l hl y hy
    cases l with
    | nil => simp [firstSeenDedup] at hy
    | cons x xs => simp at hl
  | succ n ih =>
    intro l hl y hy
    cases l with
    | nil => simp [firstSeenDedup] at hy
    | cons x xs =>
      rw [firstSeenDedup] at hy
      rcases List.mem_cons.mp hy with h | h
      · exact h ▸ List.mem_cons_self x xs
      · have hlen : (xs.filter (fun y => y ≠ x)).length ≤ n :=
          le_trans (List.length_filter_le _ _) (Nat.le_of_succ_le_succ hl)
        exact List.mem_cons_of_mem x (List.mem_of_mem_filter (ih _ hlen y h))

/-- `firstSeenDedup` never keeps two equal elements. -/
lemma nodup_firstSeenDedup : ∀ n (l : List PyVal), l.length ≤ n →
    (firstSeenDedup l).Nodup := by
  intro n
  induction n with
  | zero =>
    intro l hl
    cases l with
    | nil => simp [firstSeenDedup]
    | cons x xs => simp at hl
  | succ n ih =>
    intro l hl
    cases l with
    | nil => simp [firstSeenDedup]
    | cons x xs =>
      rw [firstSeenDedup]
      have hlen : (xs.filter (fun y => y ≠ x)).length ≤ n :=
        le_trans (List.length_filter_le _ _) (Nat.le_of_succ_le_succ hl)
      refine List.nodup_cons.mpr ⟨?_, ih _ hlen⟩
      intro hx
      have := List.of_mem_filter (mem_firstSeenDedup n _ hlen x hx)
      simp at this

/-- With only hashable elements, the code's accumulator loop computes
first-seen dedup of the elements not yet seen. -/
lemma dedupAux_hashable : ∀ n (l : List PyVal), l.length ≤ n →
    ∀ seen, (∀ x ∈ l, passThrough x = false) →
    dedupAux seen l = firstSeenDedup (l.filter (fun x => decide (x ∉ seen))) := by
  intro n
  induction n with
  | zero =>
    intro l hl seen _
    cases l with
    | nil => simp [dedupAux, firstSeenDedup]
    | cons x xs => simp at hl
  | succ n ih =>
    intro l hl seen hpass
    cases l with
    | nil => simp [dedupAux, firstSeenDedup]
    | cons x xs =>
      have hx : passThrough x = false := hpass x (List.mem_cons_self x xs)
      have hxs : ∀ y ∈ xs, passThrough y = false :=
        fun y hy => hpass y (List.mem_cons_of_mem x hy)
      have hlen : xs.length ≤ n := Nat.le_of_succ_le_succ hl
      by_cases hseen : x ∈ seen
      · rw [show dedupAux seen (x :: xs) = dedupAux seen xs by
            simp [dedupAux, hx, hseen]]
        rw [ih xs hlen seen hxs]
        congr 1
        simp [List.filter_cons, hseen]
      · rw [show dedupAux seen (x :: xs) = x :: dedupAux (x :: seen) xs by
            simp [dedupAux, hx, hseen]]
        rw [ih xs hlen (x :: seen) hxs]
        rw [show (x :: xs).filter (fun y => decide (y ∉ seen))
              = x :: xs.filter (fun y => decide (y ∉ seen)) by
            simp [List.filter_cons, hseen]]
        rw [firstSeenDedup]
        refine congrArg (x :: ·) ?_
        rw [List.filter_filter]
        refine congrArg firstSeenDedup ?_
        apply List.filter_congr
        intro y _
        by_cases hyx : y = x <;> by_cases hys : y ∈ seen <;> simp [hyx, hys]

/-- With only pass-through (unhashable) elements, the loop copies the list. -/
lemma dedupAux_passthrough : ∀ (l : List PyVal) seen,
    (∀ x ∈ l, passThrough x = true) → dedupAux seen l = l := by
  intro l
  induction l with
  | nil => intro seen _; rfl
  | cons x xs ih =>
    intro seen hpass
    have hx := hpass x (List.mem_cons_self x xs)
    simp [dedupAux, hx, ih seen (fun y hy => hpass y (List.mem_cons_of_mem x hy))]

/-- C8 counterexample: two equal dict-shaped records — the shape of every
record in the extractor's persisted usage batch — survive `deduplicate_list`
untouched, so the output is not duplicate-free. -/
theorem claim_C8_counterexample :
    deduplicate_list [PyVal.dict [("k", PyLeaf.s "v")], PyVal.dict [("k", PyLeaf.s "v")]]
      = [PyVal.dict [("k", PyLeaf.s "v")], PyVal.dict [("k", PyLeaf.s "v")]]
    ∧ ¬ (deduplicate_list
          [PyVal.dict [("k", PyLeaf.s "v")], PyVal.dict [("k", PyLeaf.s "v")]]).Nodup := by
  constructor
  · rfl
  · decide

/-- C8 amended: for lists of hashable elements `deduplicate_list` is exactly
order-preserving first-seen deduplication (hence duplicate-free); elements
that are lists, dicts or sets — in particular every dict-shaped usage
record — are passed through unchanged, never deduplicated. -/
theorem claim_C8_amended :
    (∀ l : List PyVal, (∀ x ∈ l, passThrough x = false) →
        deduplicate_list l = firstSeenDedup l ∧ (deduplicate_list l).Nodup)
    ∧ (∀ l : List PyVal, (∀ x ∈ l, passThrough x = true) → deduplicate_list l = l) := by
  constructor
  · intro l hpass
    have h1 : deduplicate_list l = firstSeenDedup l := by
      unfold deduplicate_list
      rw [dedupAux_hashable l.length l le_rfl [] hpass]
      congr 1
      simp
    exact ⟨h1, h1 ▸ nodup_firstSeenDedup l.length l le_rfl⟩
  · intro l hpass
    exact dedupAux_passthrough l [] hpass

/-- C2: on a workflow whose two steps reference the same action on raw lines
5 and 9, the persisted usage batch contains two *identical* records, both
carrying line number 5 (each step's record keeps only the first matching
line, and `deduplicate_list` passes dicts through) — not two records
differing only in line number. The per-line fan-out list (first component,
line numbers 5, 9, 5, 9) is computed by the source but never persisted. -/
theorem claim_C2_divergence :
    (search_and_extract_actions "o/r" "ci.yml" c2Jobs c2Lines).2
        = [encodeUsage ⟨"octo/checkout@v3", "ci.yml", "o/r", "octo/checkout", "v3", 5⟩,
           encodeUsage ⟨"octo/checkout@v3", "ci.yml", "o/r", "octo/checkout", "v3", 5⟩]
    ∧ (search_and_extract_actions "o/r" "ci.yml" c2Jobs c2Lines).1.map
          (fun p => p.line_numbers.1) = [5, 9, 5, 9] :=
  ⟨rfl, rfl⟩

/-- Witness for C8 amended at concrete inputs. -/
theorem claim_C8_amended_witness :
    deduplicate_list [PyVal.leaf (PyLeaf.s "a"), PyVal.leaf (PyLeaf.s "b"),
        PyVal.leaf (PyLeaf.s "a")]
      = firstSeenDedup [PyVal.leaf (PyLeaf.s "a"), PyVal.leaf (PyLeaf.s "b"),
        PyVal.leaf (PyLeaf.s "a")]
    ∧ deduplicate_list [PyVal.set [PyLeaf.i 1], PyVal.set [PyLeaf.i 1]]
      = [PyVal.set [PyLeaf.i 1], PyVal.set [PyLeaf.i 1]] := by
  constructor
  · exact (claim_C8_amended.1 _ (by decide)).1
  · exact claim_C8_amended.2 _ (by decide)

/-- Reading `commit_sha` on any `RepositoryMention` raises `AttributeError`. -/
lemma getattr_commit_sha (m : RepositoryMention) :
    m.getattr "commit_sha" = .error .attributeError := rfl

/-- Elements of an insertion step come from the inserted element or the
original list. -/
lemma mem_insertByStars {y x : QRow} : ∀ {l : List QRow},
    y ∈ insertByStars x l → y = x ∨ y ∈ l := by
  intro l
  induction l with
  | nil =>
    intro h
    simp [insertByStars] at h
    exact Or.inl h
  | cons z zs ih =>
    intro h
    unfold insertByStars at h
    by_cases hc : starsLe (starsKey x) (starsKey z) = true
    · rw [if_pos hc] at h
      rcases List.mem_cons.mp h with h | h
      · exact Or.inl h
      · exact Or.inr h
    · rw [if_neg hc] at h
      rcases List.mem_cons.mp h with h | h
      · exact Or.inr (h ▸ List.mem_cons_self _ _)
      · rcases ih h with h | h
        · exact Or.inl h
        · exact Or.inr (List.mem_cons_of_mem _ h)

/-- The star sort only permutes its input. -/
lemma mem_sortByStars {y : QRow} : ∀ {l : List QRow}, y ∈ sortByStars l → y ∈ l := by
  intro l
  induction l with
  | nil => intro h; simp [sortByStars] at h
  | cons z zs ih =>
    intro h
    unfold sortByStars at h
    rcases mem_insertByStars h with h | h
    · exact h ▸ List.mem_cons_self _ _
    · exact List.mem_cons_of_mem _ (ih h)

/-- Every mention in a successful construction pass comes from some row. -/
lemma mapMentions_mem : ∀ (rows : List QRow) (ms : List RepositoryMention)
    (m : RepositoryMention), mapMentions rows = .ok ms → m ∈ ms →
    ∃ r ∈ rows, mkMention r = .ok m := by
  intro rows
  induction rows with
  | nil =>
    intro ms m h hm
    unfold mapMentions at h
    injection h with h
    subst h
    simp at hm
  | cons r rs ih =>
    intro ms m h hm
    unfold mapMentions at h
    cases hr : mkMention r with
    | error e => rw [hr] at h; cases h
    | ok m0 =>
      rw [hr] at h
      cases hrs : mapMentions rs with
      | error e => rw [hrs] at h; cases h
      | ok ms0 =>
        rw [hrs] at h
        injection h with h
        subst h
        rcases List.mem_cons.mp hm with h | h
        · exact ⟨r, List.mem_cons_self _ _, h ▸ hr⟩
        · obtain ⟨r', hr', hmk⟩ := ih ms0 m hrs h
          exact ⟨r', List.mem_cons_of_mem _ hr', hmk⟩

/-- A successfully constructed mention carries its row's repository name. -/
lemma mkMention_repo {r : QRow} {m : RepositoryMention}
    (h : mkMention r = .ok m) : m.repo_full_name = r.oa.repo_full_name := by
  unfold mkMention at h
  split at h
  · injection h with h
    rw [← h]
  · cases h

/-- A null-extended join row exists only when there was no match. -/
lemma leftJoin1_none {β : Type} {l : List β} (h : Option.none ∈ leftJoin1 l) : l = [] := by
  cases l with
  | nil => rfl
  | cons a as =>
    unfold leftJoin1 at h
    simp at h

/-- A join-product row whose exclusion column is NULL belongs to a
repository with no row in `pull_request_exclusions`. -/
lemma queryRows_excluded {db : DBState} {r : QRow} (hr : r ∈ queryRows db)
    (hpre : r.pre = Option.none) :
    r.oa.repo_full_name ∉ db.pull_request_exclusions := by
  unfold queryRows at hr
  simp only [List.mem_flatMap, List.mem_map] at hr
  obtain ⟨oa, hoa, pr1, hpr, pa1, hpa, tg1, htg, pre1, hprem, heq⟩ := hr
  subst heq
  simp only at hpre
  subst hpre
  have hnil := leftJoin1_none hprem
  intro hmem
  have : oa.repo_full_name ∈ db.pull_request_exclusions.filter
      (fun e => decide (e = oa.repo_full_name)) :=
    List.mem_filter.mpr ⟨hmem, by simp⟩
  rw [hnil] at this
  simp at this

/-- C4: a repository with a row in `pull_request_exclusions` never appears in
the mentions returned by `get_outdated_mentions` — the anti-join
(`pre.repo_full_name IS NULL`) removes every one of its rows. -/
theorem claim_C4 (db : DBState) (repo : String) (ms : List RepositoryMention)
    (m : RepositoryMention) (hexc : repo ∈ db.pull_request_exclusions)
    (hres : get_outdated_mentions db = .ok ms) (hm : m ∈ ms) :
    m.repo_full_name ≠ repo := by
  obtain ⟨r, hr, hmk⟩ := mapMentions_mem _ ms m hres hm
  have hr' := mem_sortByStars hr
  have hfe := List.mem_filter.mp hr'
  have hpre : r.pre = Option.none := by
    have h2 := hfe.2
    unfold rowEligible at h2
    simp only [Bool.and_eq_true, Option.isNone_iff_eq_none] at h2
    exact h2.1.1.2
  have hnotex := queryRows_excluded hfe.1 hpre
  intro hcontra
  apply hnotex
  have hrepo : r.oa.repo_full_name = repo := by
    rw [← mkMention_repo hmk, hcontra]
  rw [hrepo]
  exact hexc

/-- Witness for C4: in a ledger state where `x/y` is excluded and `c/d` is
not, the single returned mention is for `c/d`, not `x/y`. -/
theorem claim_C4_witness :
    (⟨"c/d", "g.yml", 4, "a/b", "v1", "v2", 5, true⟩ : RepositoryMention).repo_full_name
      ≠ "x/y" :=
  claim_C4
    ⟨[⟨"x/y", "a/b", "v1", "f.yml", 3, some "v2", true⟩,
      ⟨"c/d", "a/b", "v1", "g.yml", 4, some "v2", true⟩],
     [⟨"c/d", 5⟩], [⟨"a", "b", some "v2"⟩], [], ["x/y"]⟩
    "x/y"
    [⟨"c/d", "g.yml", 4, "a/b", "v1", "v2", 5, true⟩]
    ⟨"c/d", "g.yml", 4, "a/b", "v1", "v2", 5, true⟩
    (by decide) rfl (by decide)

/-- C9: the `RepositoryMention` model declares no `commit_sha` field; reading
it raises `AttributeError`; the `commit_sha` keyword that
`get_outdated_mentions` passes (the tag join column) is not retained by the
constructor; and consequently the pin-to-commit branch of
`update_workflow_files` aborts with `AttributeError` on any mention —
it can never execute its SHA substitution. -/
theorem claim_C9 :
    ("commit_sha" ∉ RepositoryMention.declaredFields)
    ∧ (∀ m : RepositoryMention, m.getattr "commit_sha" = .error .attributeError)
    ∧ (∀ (r : QRow) (t1 t2 : Option TagRow),
        mkMention { r with tag := t1 } = mkMention { r with tag := t2 })
    ∧ (∀ (m : RepositoryMention) (rest : List RepositoryMention) (fs : FS) (content : String),
        fsRead fs (remapMention m).file_path = some content →
        update_workflow_files true (m :: rest) fs = .error .attributeError) := by
  refine ⟨by decide, getattr_commit_sha, fun r t1 t2 => rfl, ?_⟩
  intro m rest fs content h
  unfold update_workflow_files updateLoop
  simp only [h, newContentAfterBranch, getattr_commit_sha, if_true, reduceIte]

/-- Witness for C9 at a concrete mention and filesystem. -/
theorem claim_C9_witness :
    update_workflow_files true
      [⟨"o/r", "w.yml", 1, "a/b", "v1", "v2", 0, true⟩] [("w.yml", "uses: a/b@v1")]
      = .error .attributeError :=
  claim_C9.2.2.2 ⟨"o/r", "w.yml", 1, "a/b", "v1", "v2", 0, true⟩ [] [("w.yml", "uses: a/b@v1")]
    "uses: a/b@v1" rfl

/-- C7 counterexample: under the pin-to-commit strategy a mention without a
resolved SHA is *not* skipped — `update_workflow_files` aborts with
`AttributeError` while evaluating `m.commit_sha`, returning no modified-file
set at all (in particular not the skip outcome `.ok (fs, [])` the claim
implies). -/
theorem claim_C7_counterexample :
    update_workflow_files true
        [⟨"o/r", "t/cloned_repos/o_r/w.yml", 2, "a/b", "v3", "v4", 0, true⟩]
        [("t/pr/o_r/w.yml", "uses: a/b@v3")]
      = .error .attributeError
    ∧ update_workflow_files true
        [⟨"o/r", "t/cloned_repos/o_r/w.yml", 2, "a/b", "v3", "v4", 0, true⟩]
        [("t/pr/o_r/w.yml", "uses: a/b@v3")]
      ≠ .ok ([("t/pr/o_r/w.yml", "uses: a/b@v3")], []) := by
  refine ⟨rfl, fun h => ?_⟩
  injection h

/-- C7 amended: under the pin-to-commit strategy, processing any
classifier-produced mention raises `AttributeError` when its `commit_sha`
attribute is read, so `update_workflow_files` aborts with an error: no
substitution of any kind is applied on behalf of the mention and no
modified-file set is returned. -/
theorem claim_C7_amended (m : RepositoryMention) (rest : List RepositoryMention)
    (fs : FS) (content : String)
    (hread : fsRead fs (remapMention m).file_path = some content) :
    update_workflow_files true (m :: rest) fs = .error .attributeError := by
  unfold update_workflow_files updateLoop
  simp only [hread, newContentAfterBranch, getattr_commit_sha, if_true, reduceIte]

/-- Witness for C7 amended at a concrete mention and filesystem. -/
theorem claim_C7_amended_witness :
    update_workflow_files true
      [⟨"o/r", "x.yml", 7, "c/d", "v1", "", 3, true⟩] [("x.yml", "hello")]
      = .error .attributeError :=
  claim_C7_amended ⟨"o/r", "x.yml", 7, "c/d", "v1", "", 3, true⟩ [] [("x.yml", "hello")]
    "hello" rfl

/-- C10 counterexample: a mention with empty `latest_version` does *not*
always raise an unbound-variable error — when an earlier mention has
assigned `new_content`, the stale value is compared instead and the loop
completes normally (here: first mention bumps `v1` to `v2`; second mention,
with empty `latest_version`, silently compares the stale text against its
own file and no error is raised). -/
theorem claim_C10_counterexample :
    update_workflow_files false
        [⟨"o/r", "t/cloned_repos/x.yml", 1, "a/b", "v1", "v2", 0, true⟩,
         ⟨"o/r", "t/cloned_repos/y.yml", 2, "a/b", "v1", "", 0, true⟩]
        [("t/pr/x.yml", "uses: a/b@v1"), ("t/pr/y.yml", "uses: a/b@v2")]
      = .ok ([("t/pr/x.yml", "uses: a/b@v2"), ("t/pr/y.yml", "uses: a/b@v2")],
             ["t/pr/x.yml"])
    ∧ update_workflow_files false
        [⟨"o/r", "t/cloned_repos/x.yml", 1, "a/b", "v1", "v2", 0, true⟩,
         ⟨"o/r", "t/cloned_repos/y.yml", 2, "a/b", "v1", "", 0, true⟩]
        [("t/pr/x.yml", "uses: a/b@v1"), ("t/pr/y.yml", "uses: a/b@v2")]
      ≠ .error .unboundLocal := by
  refine ⟨rfl, fun h => ?_⟩
  injection h

/-- C10 amended: when the first mention of the batch takes neither
substitution branch (pin-to-sha off, empty `latest_version`), `new_content`
is unassigned and the comparison raises `UnboundLocalError`; the operation
is not total over its input mentions. (When an earlier mention assigned
`new_content`, the stale value is compared instead.) -/
theorem claim_C10_amended (m : RepositoryMention) (rest : List RepositoryMention)
    (fs : FS) (content : String)
    (hlat : m.latest_version = "")
    (hread : fsRead fs (remapMention m).file_path = some content) :
    update_workflow_files false (m :: rest) fs = .error .unboundLocal := by
  unfold update_workflow_files updateLoop
  have hlat' : (remapMention m).latest_version = "" := hlat
  simp [hread, newContentAfterBranch, hlat']

/-- Witness for C10 amended at a concrete mention and filesystem. -/
theorem claim_C10_amended_witness :
    update_workflow_files false
      [⟨"o/r", "y.yml", 2, "a/b", "v1", "", 0, true⟩] [("y.yml", "text")]
      = .error .unboundLocal :=
  claim_C10_amended ⟨"o/r", "y.yml", 2, "a/b", "v1", "", 0, true⟩ [] [("y.yml", "text")]
    "text" rfl rfl

/-- C3 counterexample: a repository processed by the CLI `create_prs` command
whose rewrite modifies no files (the substituted substring is absent) is
simply skipped — the run succeeds with an empty event list, so no
ExclusionRecord is written for it (and no commit, push or PR either). -/
theorem claim_C3_counterexample :
    cli_process_repo
        ⟨[("t/pr/w.yml", "uses: a/b@v1")], [], "main", "me", "n",
          Option.none, "", "", "", 0⟩ "o/r"
        [⟨"o/r", "t/cloned_repos/w.yml", 1, "a/b", "v9", "v10", 0, true⟩]
      = .ok ([("t/pr/w.yml", "uses: a/b@v1")], [])
    ∧ Event.addExclusion "o/r" ∉ runEvents (cli_process_repo
          ⟨[("t/pr/w.yml", "uses: a/b@v1")], [], "main", "me", "n",
            Option.none, "", "", "", 0⟩ "o/r"
          [⟨"o/r", "t/cloned_repos/w.yml", 1, "a/b", "v9", "v10", 0, true⟩]) := by
  exact ⟨rfl, by decide⟩

/-- C3 amended: in the orchestrator class (`PullRequestCreator.
create_pr_for_repo`) a repository whose rewrite step modifies no files is
marked excluded and processing stops with no commit, push or PR creation
(the event list is exactly the exclusion write); in the CLI `create_prs`
command such a repository is skipped with no commit, push or PR but also
with no ExclusionRecord written. -/
theorem claim_C3_amended :
    (∀ (env : OrchEnv) (pin_to_sha : Bool) (repo : String)
        (mentions : List RepositoryMention) (interactive : Bool)
        (o n : String) (fs1 : FS),
        pySplit2 repo = some (o, n) →
        update_workflow_files pin_to_sha mentions env.fs = .ok (fs1, []) →
        create_pr_for_repo env pin_to_sha repo mentions interactive
          = (.ok Option.none, [.addExclusion repo]))
    ∧ (∀ (env : OrchEnv) (repo : String) (mentions : List RepositoryMention)
        (o n : String) (fs1 : FS),
        pySplit2 repo = some (o, n) →
        cliUpdateLoop env.fs [] mentions = .ok (fs1, []) →
        cli_process_repo env repo mentions = .ok (fs1, [])) := by
  constructor
  · intro env pin repo mentions interactive o n fs1 hsplit hupd
    unfold create_pr_for_repo
    simp [hsplit, hupd]
  · intro env repo mentions o n fs1 hsplit hupd
    unfold cli_process_repo
    simp [hsplit, hupd]

/-- Witness for C3 amended: an empty mention batch modifies nothing; the
orchestrator writes exactly the exclusion, the CLI writes nothing. -/
theorem claim_C3_amended_witness :
    create_pr_for_repo ⟨[], [], "main", "me", "y", Option.none, "", "", "", 0⟩
        false "o/r" [] true
      = (.ok Option.none, [.addExclusion "o/r"])
    ∧ cli_process_repo ⟨[], [], "main", "me", "y", Option.none, "", "", "", 0⟩
        "o/r" []
      = .ok ([], []) := by
  constructor
  · exact claim_C3_amended.1 _ false "o/r" [] true "o" "r" [] rfl rfl
  · exact claim_C3_amended.2 _ "o/r" [] "o" "r" [] rfl rfl

/-- C5: under the version-bump strategy, when some existing open
workflow-touching PR matches the fixed bot-update phrasing set (or was
authored by the tool's identity), `should_create_pr` is false and the
orchestrator run ends with the repository excluded and no PR created (the
events after the rewrite are exactly commit, push, exclusion); the concrete
title `chore(deps): bump actions/checkout from v3 to v4` matches. -/
theorem claim_C5 (env : OrchEnv) (repo : String) (mentions : List RepositoryMention)
    (interactive : Bool) (o n : String) (fs1 : FS) (modified : List String) (pr : PRInfo)
    (hsplit : pySplit2 repo = some (o, n))
    (hupd : update_workflow_files false mentions env.fs = .ok (fs1, modified))
    (hmod : modified ≠ [])
    (hpr : pr ∈ env.existing_prs)
    (hmatch : prMatchesVersion pr = true) :
    should_create_pr false env.existing_prs = false
    ∧ create_pr_for_repo env false repo mentions interactive
        = (.ok Option.none, [.commit, .push, .addExclusion repo])
    ∧ prMatchesVersion ⟨1, "chore(deps): bump actions/checkout from v3 to v4", Option.none⟩
        = true := by
  have hscp : should_create_pr false env.existing_prs = false := by
    unfold should_create_pr
    rw [if_neg (by simp : ¬((false : Bool) = true))]
    cases hall : env.existing_prs.all (fun p => !prMatchesVersion p) with
    | false => rfl
    | true =>
      exfalso
      have hp := List.all_eq_true.mp hall pr hpr
      rw [hmatch] at hp
      simp at hp
  refine ⟨hscp, ?_, by decide⟩
  unfold create_pr_for_repo
  have hne : modified.isEmpty = false := by
    cases modified with
    | nil => exact absurd rfl hmod
    | cons a as => rfl
  simp [hsplit, hupd, hne, build_pr_details, hscp]

/-- Witness for C5: a concrete run with one bumpable mention and one open
`chore(deps): bump ...` PR ends excluded with no PR created. -/
theorem claim_C5_witness :
    should_create_pr false
        [⟨1, "chore(deps): bump actions/checkout from v3 to v4", Option.none⟩] = false
    ∧ create_pr_for_repo
        ⟨[("t/pr/x.yml", "uses: a/b@v1")],
         [⟨1, "chore(deps): bump actions/checkout from v3 to v4", Option.none⟩],
         "main", "me", "y", Option.none, "", "", "", 0⟩
        false "o/r" [⟨"o/r", "t/cloned_repos/x.yml", 1, "a/b", "v1", "v2", 0, true⟩] true
      = (.ok Option.none, [.commit, .push, .addExclusion "o/r"])
    ∧ prMatchesVersion ⟨1, "chore(deps): bump actions/checkout from v3 to v4", Option.none⟩
        = true :=
  claim_C5
    ⟨[("t/pr/x.yml", "uses: a/b@v1")],
     [⟨1, "chore(deps): bump actions/checkout from v3 to v4", Option.none⟩],
     "main", "me", "y", Option.none, "", "", "", 0⟩
    "o/r" [⟨"o/r", "t/cloned_repos/x.yml", 1, "a/b", "v1", "v2", 0, true⟩] true
    "o" "r" [("t/pr/x.yml", "uses: a/b@v2")] ["t/pr/x.yml"]
    ⟨1, "chore(deps): bump actions/checkout from v3 to v4", Option.none⟩
    rfl rfl (by decide) (by decide) (by decide)

end Actup
